import Mathlib

/-!
Shallow embedding of the `bullhorn-auth-client` core (src/index.js): the
transport helper `requestWithRetry` and the session-acquisition engine
`loginToBullhorn` with its protocol operations (`loginInfo`, `step0`..`step3`,
`ping`), plus the environment extraction helpers `credentialsFromEnv` and
`tokensFromEnv`.

Modelling conventions:
* JS strings that may be `undefined` are `Option String`; JS truthiness of
  such a value is `truthy` (`undefined` and the empty string are falsy).
* JS numbers appearing in the configuration are modelled by `JsNum`
  (a finite integer or NaN); the claims only involve integral values.
* The HTTP transport is an oracle: a list of `FetchOutcome` values consumed
  one per `fetch` call (exactly like the repository's jest mock); running
  out of outcomes behaves as a network failure.
* Raised JS errors are `JsError`; functions that can throw return `Except`.
* Real time (the timeout and the actual sleeping) is not modelled; the
  backoff durations are recorded as events (`REvent.sleep`).
-/

namespace Bullhorn

/-- Truthiness of a possibly-undefined JS string: `undefined` and `""` are falsy. -/
def truthy : Option String → Bool
  | some s => !s.isEmpty
  | none => false

/-- JS template-literal stringification of a possibly-undefined string. -/
def jsStr : Option String → String
  | some s => s
  | none => "undefined"

/-- JS number restricted to the integral values the claims involve; `nan`
covers every non-finite outcome of `Number(...)` coercion. -/
inductive JsNum where
  | num (n : Int)
  | nan
deriving DecidableEq

/-- Number.isFinite on a `JsNum`. -/
def JsNum.isFinite : JsNum → Bool
  | num _ => true
  | nan => false

/-- Comparison `x > t` where `x` may be NaN (NaN comparisons are false in JS). -/
def JsNum.gtInt : JsNum → Int → Bool
  | num n, t => decide (t < n)
  | nan, _ => false

/-- Unreserved characters of JS `encodeURIComponent` (kept verbatim);
code 39 is the apostrophe. -/
def isUnreservedURI (c : Char) : Bool :=
  c.isAlpha || c.isDigit || ['-', '_', '.', '!', '~', '*', '(', ')'].contains c ||
    c.toNat == 39

/-- Uppercase hexadecimal digit, as produced by `encodeURIComponent`. -/
def hexDigit (n : Nat) : Char :=
  if n < 10 then Char.ofNat (48 + n) else Char.ofNat (55 + n)

/-- UTF-8 bytes of a character (as natural numbers below 256). -/
def utf8Bytes (c : Char) : List Nat :=
  let n := c.toNat
  if n < 128 then [n]
  else if n < 2048 then [192 + n / 64, 128 + n % 64]
  else if n < 65536 then [224 + n / 4096, 128 + (n / 64) % 64, 128 + n % 64]
  else [240 + n / 262144, 128 + (n / 4096) % 64, 128 + (n / 64) % 64, 128 + n % 64]

/-- JS `encodeURIComponent`: percent-encode every character outside the
unreserved set, byte by byte in UTF-8, with uppercase hex digits. -/
def encodeURIComponent (s : String) : String :=
  String.mk (s.data.flatMap fun c =>
    if isUnreservedURI c then [c]
    else (utf8Bytes c).flatMap fun b => ['%', hexDigit (b / 16), hexDigit (b % 16)])

/-- Numeric value of a list of decimal digit characters. -/
def digitsVal (l : List Char) : Nat :=
  l.foldl (fun acc c => acc * 10 + (c.toNat - 48)) 0

/-- JS `parseInt(s, 10)`: trim whitespace, optional sign, longest digit
prefix; NaN when no digits are found. -/
def parseIntJS (s : String) : JsNum :=
  let t := ((s.data.dropWhile Char.isWhitespace).reverse.dropWhile Char.isWhitespace).reverse
  let neg : Bool := t.head? == some '-'
  let core : List Char :=
    match t with
    | c :: rest => if c = '-' ∨ c = '+' then rest else t
    | [] => []
  let digits := core.takeWhile Char.isDigit
  if digits.isEmpty then JsNum.nan
  else JsNum.num ((if neg then -1 else 1) * (digitsVal digits : Int))

/-- Split a character list on a separator character (like `String.splitOn`
with a one-character separator). -/
def splitOnChar (sep : Char) : List Char → List (List Char)
  | [] => [[]]
  | c :: rest =>
    if c = sep then [] :: splitOnChar sep rest
    else
      match splitOnChar sep rest with
      | [] => [[c]]
      | h :: t => (c :: h) :: t

/-- Join character lists with a separator character between them. -/
def intercalateChar (sep : Char) : List (List Char) → List Char
  | [] => []
  | [l] => l
  | l :: rest => l ++ sep :: intercalateChar sep rest

/-- Query component of Node's legacy `url.parse`: the text after the first
`?` of the part before any `#`; `none` when there is no `?`. -/
def urlParseQuery (u : String) : Option String :=
  let beforeHash := (splitOnChar '#' u.data).headD u.data
  match splitOnChar '?' beforeHash with
  | _ :: r :: rs => some (String.mk (intercalateChar '?' (r :: rs)))
  | _ => none

/-- Lookup of one key in a query string, as `qs.parse(q)[key]`: split on `&`,
key is the text before the first `=`; a pair without `=` has value `""`. -/
def qsParseGet (q : Option String) (key : String) : Option String :=
  match q with
  | none => none
  | some s =>
    (splitOnChar '&' s.data).findSome? fun pair =>
      match splitOnChar '=' pair with
      | [k] => if k = key.data then some "" else none
      | k :: vs => if k = key.data then some (String.mk (intercalateChar '=' vs)) else none
      | [] => none

/-- Raised JS failures, by kind: thrown `new Error(msg)`, a rejected fetch,
the retry predicate's `HTTP <status>` failure, or a `TypeError`. -/
inductive JsError where
  | message (msg : String)
  | network (msg : String)
  | http (status : Nat)
  | typeError (msg : String)
deriving DecidableEq

/-- Value of `err?.response?.status`. -/
def errStatus : JsError → Option Nat
  | .http s => some s
  | _ => none

/-- Value of `err.message`. -/
def errMessage : JsError → String
  | .message m => m
  | .network m => m
  | .typeError m => m
  | .http s => "HTTP " ++ toString s

/-- Response headers read by the client. -/
structure Headers where
  location : Option String := none
  xRateLimitLimitMinute : Option String := none
  xRateLimitRemainingMinute : Option String := none
deriving DecidableEq

/-- JSON body fields read by the client (absent field = `undefined`). -/
structure JsonBody where
  oauthUrl : Option String := none
  restUrl : Option String := none
  access_token : Option String := none
  refresh_token : Option String := none
  BhRestToken : Option String := none
deriving DecidableEq

/-- An HTTP response as observed through the fetch interface. -/
structure Response where
  status : Nat
  statusText : String := "OK"
  headers : Headers := {}
  body : JsonBody := {}
deriving DecidableEq

/-- One transport event: either a response or a rejected fetch. -/
inductive FetchOutcome where
  | response (r : Response)
  | reject (msg : String)
deriving DecidableEq

/-- Observable events of the retry loop: a fetch attempt, an invocation of the
`onRetryAttempt` observer, or a backoff sleep of the given milliseconds. -/
inductive REvent where
  | fetch
  | callback (attempt : Nat) (status : Option Nat) (error : String)
  | sleep (ms : Nat)
deriving DecidableEq

/-- One `doFetch` against the transport oracle: consume the next outcome; an
exhausted oracle behaves as a network failure. -/
def doFetch : List FetchOutcome → Except JsError Response × List FetchOutcome
  | [] => (.error (.network "fetch failed"), [])
  | .response r :: rest => (.ok r, rest)
  | .reject msg :: rest => (.error (.network msg), rest)

/-- Retry predicate of `requestWithRetry`: `res.status >= 500 || res.status === 429`. -/
def retryableStatus (status : Nat) : Bool :=
  decide (500 ≤ status) || status == 429

/-- One attempt of the retry loop body: fetch, then convert a retryable
status into a raised `HTTP <status>` failure. -/
def attemptOnce (tr : List FetchOutcome) : Except JsError Response × List FetchOutcome :=
  match doFetch tr with
  | (.ok r, rest) =>
    if retryableStatus r.status then (.error (.http r.status), rest) else (.ok r, rest)
  | (.error e, rest) => (.error e, rest)

/-- Backoff delay `Math.min(1000 * Math.pow(2, attempt - 1), 4000)`. -/
def backoffMs (attempt : Nat) : Nat :=
  min (1000 * 2 ^ (attempt - 1)) 4000

/-- Retry loop of `requestWithRetry`, emitting an event trace. `attempt` is the
number of failures so far; `remaining` is the number of retries still allowed
(`retries - attempt`). The observer is invoked (when set) before the backoff
sleep; a throwing observer is swallowed by the `try { ... } catch {}`. -/
def requestLoop (cbSet cbThrows : Bool) (attempt remaining : Nat) (tr : List FetchOutcome) :
    Except JsError Response × List FetchOutcome × List REvent :=
  match attemptOnce tr with
  | (.ok r, rest) => (.ok r, rest, [.fetch])
  | (.error e, rest) =>
    match remaining with
    | 0 => (.error e, rest, [.fetch])
    | r' + 1 =>
      let a := attempt + 1
      let _cbOutcome : Except JsError Unit :=
        if cbSet && cbThrows then .error (.message "callback failure") else .ok ()
      let cbEvents : List REvent := if cbSet then [.callback a (errStatus e) (errMessage e)] else []
      let (res, tr', evs) := requestLoop cbSet cbThrows a r' rest
      (res, tr', .fetch :: (cbEvents ++ (.sleep (backoffMs a) :: evs)))

/-- HTTP options produced by `createHttpOptions` (the two booleans model the
`onRetryAttempt` function: whether it is set, and whether it throws). -/
structure HttpOptions where
  timeoutMs : Int
  userAgent : String
  retries : Int
  onRetryAttempt : Bool := false
  cbThrows : Bool := false
deriving DecidableEq

/-- `requestWithRetry(urlStr, init, httpOpts)` over the transport oracle. -/
def requestWithRetry (urlStr : String) (o : HttpOptions) (tr : List FetchOutcome) :
    Except JsError Response × List FetchOutcome × List REvent :=
  requestLoop o.onRetryAttempt o.cbThrows 0 o.retries.toNat tr

/-- Number of fetch attempts recorded in an event trace. -/
def countFetch : List REvent → Nat
  | [] => 0
  | .fetch :: rest => countFetch rest + 1
  | _ :: rest => countFetch rest

/-- Attempt numbers passed to the observer, in trace order. -/
def callbackAttempts : List REvent → List Nat
  | [] => []
  | .callback a _ _ :: rest => a :: callbackAttempts rest
  | _ :: rest => callbackAttempts rest

/-- A transport outcome that fails the retry predicate with the given status. -/
def failOutcome (s : Nat) : FetchOutcome :=
  .response { status := s }

/-- Whether an `Except` value is a raised failure. -/
def exceptIsError {ε α : Type} : Except ε α → Bool
  | .error _ => true
  | .ok _ => false

/-- Shape checker for retry traces: each retried failure is a fetch followed by
the observer invocation (exactly when the observer is set) followed by a sleep
of `min(1000 * 2^(a-1), 4000)` ms, with `a` counting from 1; the trace ends
with a final standalone fetch. -/
def eventsShape (cbSet : Bool) : Nat → List REvent → Bool
  | _, [.fetch] => true
  | a, .fetch :: .callback a2 _ _ :: .sleep ms :: rest =>
    cbSet && a2 == a && ms == min (1000 * 2 ^ (a - 1)) 4000 && eventsShape cbSet (a + 1) rest
  | a, .fetch :: .sleep ms :: rest =>
    !cbSet && ms == min (1000 * 2 ^ (a - 1)) 4000 && eventsShape cbSet (a + 1) rest
  | _, _ => false

/-- Ordering asserted by the specification: every observer invocation is
immediately preceded by the backoff sleep. -/
def cbAfterDelayClaim : List REvent → Bool
  | [] => true
  | .callback _ _ _ :: _ => false
  | .sleep _ :: .callback _ _ _ :: rest => cbAfterDelayClaim rest
  | _ :: rest => cbAfterDelayClaim rest

/-! ## Protocol operations (src/index.js `loginInfo`, `step0`..`step3`, `ping`) -/

/-- Environment settings read by the engine (values already through
`Number(...)` coercion, since they are only used numerically). -/
structure EnvCfg where
  THRESHOLD_REMAINING_MIN : Option JsNum := none
  BULLHORN_TTL : Option JsNum := none
deriving DecidableEq

/-- Request target of `loginInfo` (the username is percent-encoded). -/
def loginInfoUrl (username : String) : String :=
  "https://rest.bullhornstaffing.com/rest-services/loginInfo?username=" ++
    encodeURIComponent username

/-- Request target of `step0` (values interpolated verbatim, as in the source). -/
def step0Url (oauthUrl refreshToken clientId clientSecret : String) : String :=
  oauthUrl ++ "/token?grant_type=refresh_token&refresh_token=" ++ refreshToken ++
    "&client_id=" ++ clientId ++ "&client_secret=" ++ clientSecret

/-- Request target of `step1` (username and password percent-encoded; the
client id interpolated verbatim, as in the source). -/
def step1Url (oauthUrl clientId username password : String) : String :=
  oauthUrl ++ "/authorize?client_id=" ++ clientId ++
    "&response_type=code&action=Login&username=" ++ encodeURIComponent username ++
    "&password=" ++ encodeURIComponent password

/-- Request target of `step2` (values interpolated verbatim, as in the source). -/
def step2Url (oauthUrl clientId clientSecret tmpAuthCode : String) : String :=
  oauthUrl ++ "/token?grant_type=authorization_code&client_id=" ++ clientId ++
    "&client_secret=" ++ clientSecret ++ "&code=" ++ tmpAuthCode

/-- Request target of `step3` (access token interpolated verbatim). -/
def step3Url (restUrl accessToken : String) (ttl : Int) : String :=
  restUrl ++ "/login?version=*&access_token=" ++ accessToken ++ "&ttl=" ++ toString ttl

/-- Result of `loginInfo`: the `oauthUrl`/`restUrl` fields of the body. -/
structure LoginInfoResult where
  oauthUrl : Option String := none
  restUrl : Option String := none
deriving DecidableEq

/-- `loginInfo(httpOpts, username)`: validates the username, then one request;
the discovery URLs are whatever the body carries. -/
def loginInfo (o : HttpOptions) (username : Option String) (tr : List FetchOutcome) :
    Except JsError LoginInfoResult × List FetchOutcome :=
  if !truthy username then (.error (.message "username must be a non-empty string"), tr)
  else
    let (res, tr', _) := requestWithRetry (loginInfoUrl (jsStr username)) o tr
    match res with
    | .ok resp => (.ok { oauthUrl := resp.body.oauthUrl, restUrl := resp.body.restUrl }, tr')
    | .error e => (.error e, tr')

/-- Result of the refresh exchange `step0` (failures are caught, not raised). -/
structure Step0Result where
  ok : Bool
  accessToken : Option String := none
  refreshToken : Option String := none
  status : Option Nat := none
  error : Option String := none
deriving DecidableEq

/-- `step0`: refresh-token exchange; any raised failure is caught and turned
into an `ok := false` result. -/
def step0 (o : HttpOptions) (oauthUrl refreshToken clientId clientSecret : Option String)
    (tr : List FetchOutcome) : Step0Result × List FetchOutcome :=
  let (res, tr', _) := requestWithRetry
    (step0Url (jsStr oauthUrl) (jsStr refreshToken) (jsStr clientId) (jsStr clientSecret)) o tr
  match res with
  | .ok resp =>
    ({ ok := true, accessToken := resp.body.access_token,
       refreshToken := resp.body.refresh_token }, tr')
  | .error e => ({ ok := false, status := errStatus e, error := some (errMessage e) }, tr')

/-- Result of `step1`: the temporary authorization code (possibly `undefined`). -/
structure Step1Result where
  tmpAuthCode : Option String := none
deriving DecidableEq

/-- Code extraction of `step1`: `url.parse(location)` throws a `TypeError` when
the Location header is absent (a non-string); otherwise
`qs.parse(parsedURL.query).code`, which is `undefined` when there is no `code`
parameter — no error is raised in that case. -/
def step1ExtractCode (location : Option String) : Except JsError (Option String) :=
  match location with
  | none => .error (.typeError "The url argument must be of type string")
  | some loc => .ok (qsParseGet (urlParseQuery loc) "code")

/-- `step1`: the authorize request with manual redirect; the code is read from
the Location header's query string. -/
def step1 (o : HttpOptions) (oauthUrl clientId username password : Option String)
    (tr : List FetchOutcome) : Except JsError Step1Result × List FetchOutcome :=
  let (res, tr', _) := requestWithRetry
    (step1Url (jsStr oauthUrl) (jsStr clientId) (jsStr username) (jsStr password)) o tr
  match res with
  | .ok resp =>
    match step1ExtractCode resp.headers.location with
    | .ok code => (.ok { tmpAuthCode := code }, tr')
    | .error e => (.error e, tr')
  | .error e => (.error e, tr')

/-- Result of the code exchange `step2`. -/
structure Step2Result where
  accessToken : Option String := none
  refreshToken : Option String := none
deriving DecidableEq

/-- `step2`: authorization-code exchange (failures propagate). -/
def step2 (o : HttpOptions) (oauthUrl clientId clientSecret tmpAuthCode : Option String)
    (tr : List FetchOutcome) : Except JsError Step2Result × List FetchOutcome :=
  let (res, tr', _) := requestWithRetry
    (step2Url (jsStr oauthUrl) (jsStr clientId) (jsStr clientSecret) (jsStr tmpAuthCode)) o tr
  match res with
  | .ok resp =>
    (.ok { accessToken := resp.body.access_token, refreshToken := resp.body.refresh_token }, tr')
  | .error e => (.error e, tr')

/-- Result of the REST login `step3`. -/
structure Step3Result where
  restUrl : Option String := none
  restToken : Option String := none
deriving DecidableEq

/-- `step3`: REST login; `ttl` falls back to `BULLHORN_TTL` (or 30) only when
the given `ttlDays` is not finite (the engine always passes a validated
finite value). -/
def step3 (o : HttpOptions) (restUrl accessToken : Option String) (ttlDays : JsNum)
    (env : EnvCfg) (tr : List FetchOutcome) : Except JsError Step3Result × List FetchOutcome :=
  let ttl : Int :=
    match ttlDays with
    | .num n => n
    | .nan => match env.BULLHORN_TTL with
      | some (.num n) => n
      | _ => 30
  let (res, tr', _) := requestWithRetry (step3Url (jsStr restUrl) (jsStr accessToken) ttl) o tr
  match res with
  | .ok resp => (.ok { restUrl := resp.body.restUrl, restToken := resp.body.BhRestToken }, tr')
  | .error e => (.error e, tr')

/-- Result of `ping` (failures are caught, not raised). -/
structure PingResult where
  ok : Bool
  minRemaining : Option String := none
  status : Option Nat := none
  error : Option String := none
deriving DecidableEq

/-- `ping`: validate an existing session; the remaining-per-minute quota is the
`x-ratelimit-remaining-minute` response header; any raised failure is caught
and turned into an `ok := false` result. -/
def ping (o : HttpOptions) (restUrl restToken : String) (tr : List FetchOutcome) :
    PingResult × List FetchOutcome :=
  let (res, tr', _) := requestWithRetry (restUrl ++ "/ping") o tr
  match res with
  | .ok resp => ({ ok := true, minRemaining := resp.headers.xRateLimitRemainingMinute }, tr')
  | .error e => ({ ok := false, status := errStatus e, error := some (errMessage e) }, tr')

/-! ## Session acquisition engine (src/index.js `loginToBullhorn`) -/

/-- Caller-supplied token bundle (each field possibly `undefined`). -/
structure Tokens where
  restUrl : Option String := none
  restToken : Option String := none
  refreshToken : Option String := none
  accessToken : Option String := none
deriving DecidableEq

/-- Caller-supplied credentials object (fields possibly `undefined`). -/
structure Creds where
  clientId : Option String := none
  clientSecret : Option String := none
  username : Option String := none
  password : Option String := none
deriving DecidableEq

/-- Optional-chaining access `creds?.field`. -/
def credField (creds : Option Creds) (f : Creds → Option String) : Option String :=
  creds.bind f

/-- The full-credentials guard of the fallback path:
`creds && creds.clientId && creds.clientSecret && creds.username && creds.password`. -/
def credsComplete (creds : Option Creds) : Bool :=
  match creds with
  | none => false
  | some c => truthy c.clientId && truthy c.clientSecret && truthy c.username && truthy c.password

/-- Caller-supplied HTTP configuration (`config.http`). -/
structure HttpCfgIn where
  timeoutMs : Option JsNum := none
  retries : Option JsNum := none
  userAgent : Option String := none
  onRetryAttempt : Bool := false
  cbThrows : Bool := false
deriving DecidableEq

/-- Caller-supplied acquisition configuration. -/
structure Config where
  ttlDays : Option JsNum := none
  minRemainingThreshold : Option JsNum := none
  http : Option HttpCfgIn := none
deriving DecidableEq

/-- The top-level `params` argument: either a non-object JS value or an object
with optional `credentials` and `tokens` fields. -/
inductive JsParams where
  | nonObject (desc : String)
  | obj (credentials : Option Creds) (tokens : Option Tokens)
deriving DecidableEq

/-- The normalized session result. -/
structure AuthResult where
  restUrl : Option String := none
  restToken : Option String := none
  refreshToken : Option String := none
  accessToken : Option String := none
  minRemaining : Option String := none
  method : String
deriving DecidableEq

/-- `createHttpOptions`: defaulting and eager validation of the HTTP policy. -/
def createHttpOptions (httpCfg : HttpCfgIn) : Except JsError HttpOptions :=
  let timeoutMs : Int :=
    match httpCfg.timeoutMs with
    | some (.num n) => n
    | _ => 30000
  if timeoutMs ≤ 0 then .error (.message "timeoutMs must be a positive number")
  else
    let retries : Int :=
      match httpCfg.retries with
      | some (.num n) => n
      | _ => 0
    if retries < 0 then .error (.message "retries must be a non-negative number")
    else .ok { timeoutMs := timeoutMs,
               userAgent := if truthy httpCfg.userAgent then jsStr httpCfg.userAgent
                            else "bullhorn-auth-client",
               retries := retries,
               onRetryAttempt := httpCfg.onRetryAttempt,
               cbThrows := httpCfg.cbThrows }

/-- Configuration resolution performed by `loginToBullhorn` before any network
call: `createHttpOptions(config.http || {})`, then the threshold
(`config.minRemainingThreshold ?? env.THRESHOLD_REMAINING_MIN ?? 100`,
non-negative), then the TTL (`config.ttlDays ?? env.BULLHORN_TTL ?? 30`,
positive). -/
def resolveConfig (config : Config) (env : EnvCfg) :
    Except JsError (HttpOptions × Int × Int) :=
  match createHttpOptions (config.http.getD {}) with
  | .error e => .error e
  | .ok httpOpts =>
    match config.minRemainingThreshold.getD (env.THRESHOLD_REMAINING_MIN.getD (.num 100)) with
    | .nan => .error (.message "minRemainingThreshold must be a non-negative number")
    | .num threshold =>
      if threshold < 0 then .error (.message "minRemainingThreshold must be a non-negative number")
      else
        match config.ttlDays.getD (env.BULLHORN_TTL.getD (.num 30)) with
        | .nan => .error (.message "ttlDays must be a positive number")
        | .num ttlDays =>
          if ttlDays ≤ 0 then .error (.message "ttlDays must be a positive number")
          else .ok (httpOpts, threshold, ttlDays)

/-- Path 4 (full login): requires complete credentials, else the
"insufficient input" error; then `loginInfo` → `step1` → `step2` → `step3`. -/
def enginePath4 (o : HttpOptions) (ttlDays : Int) (creds : Option Creds) (env : EnvCfg)
    (tr : List FetchOutcome) : Except JsError AuthResult × List FetchOutcome :=
  if !credsComplete creds then
    (.error (.message
      "Insufficient input: provide either (restUrl+restToken) or (refreshToken+client creds) or full credentials"), tr)
  else
    match loginInfo o (credField creds Creds.username) tr with
    | (.error e, tr1) => (.error e, tr1)
    | (.ok info, tr1) =>
      match step1 o info.oauthUrl (credField creds Creds.clientId)
          (credField creds Creds.username) (credField creds Creds.password) tr1 with
      | (.error e, tr2) => (.error e, tr2)
      | (.ok s1, tr2) =>
        match step2 o info.oauthUrl (credField creds Creds.clientId)
            (credField creds Creds.clientSecret) s1.tmpAuthCode tr2 with
        | (.error e, tr3) => (.error e, tr3)
        | (.ok s2, tr3) =>
          match step3 o info.restUrl s2.accessToken (.num ttlDays) env tr3 with
          | (.error e, tr4) => (.error e, tr4)
          | (.ok s3, tr4) =>
            (.ok { restUrl := s3.restUrl, restToken := s3.restToken,
                   refreshToken := s2.refreshToken, accessToken := s2.accessToken,
                   method := "full" }, tr4)

/-- Path 3 (access-token shortcut): prefer the supplied `restUrl`, else derive
one via `loginInfo` when `credentials.username` is present; raise when no REST
URL can be resolved; otherwise `step3` and return `method = "access"`. -/
def enginePath3 (o : HttpOptions) (ttlDays : Int) (creds : Option Creds) (tokens : Tokens)
    (env : EnvCfg) (tr : List FetchOutcome) : Except JsError AuthResult × List FetchOutcome :=
  if truthy tokens.accessToken then
    let resolved : Except JsError (Option String) × List FetchOutcome :=
      if !truthy tokens.restUrl && truthy (credField creds Creds.username) then
        match loginInfo o (credField creds Creds.username) tr with
        | (.error e, tr1) => (.error e, tr1)
        | (.ok info, tr1) => (.ok info.restUrl, tr1)
      else (.ok tokens.restUrl, tr)
    match resolved with
    | (.error e, tr1) => (.error e, tr1)
    | (.ok restUrl, tr1) =>
      if !truthy restUrl then
        (.error (.message
          "accessToken provided but restUrl (or credentials.username to derive it) is missing"), tr1)
      else
        match step3 o restUrl tokens.accessToken (.num ttlDays) env tr1 with
        | (.error e, tr2) => (.error e, tr2)
        | (.ok s3, tr2) =>
          (.ok { restUrl := s3.restUrl, restToken := s3.restToken,
                 accessToken := tokens.accessToken, refreshToken := tokens.refreshToken,
                 method := "access" }, tr2)
  else enginePath4 o ttlDays creds env tr

/-- Path 2 (refresh): when the refresh token and full client identity are
present, `loginInfo` then `step0`; on success `step3` and return
`method = "refresh"`; on a failed exchange fall through to path 3. -/
def enginePath2 (o : HttpOptions) (ttlDays : Int) (creds : Option Creds) (tokens : Tokens)
    (env : EnvCfg) (tr : List FetchOutcome) : Except JsError AuthResult × List FetchOutcome :=
  if truthy tokens.refreshToken && truthy (credField creds Creds.clientId) &&
      truthy (credField creds Creds.clientSecret) && truthy (credField creds Creds.username) then
    match loginInfo o (credField creds Creds.username) tr with
    | (.error e, tr1) => (.error e, tr1)
    | (.ok info, tr1) =>
      let (r0, tr2) := step0 o info.oauthUrl tokens.refreshToken
        (credField creds Creds.clientId) (credField creds Creds.clientSecret) tr1
      if r0.ok then
        match step3 o info.restUrl r0.accessToken (.num ttlDays) env tr2 with
        | (.error e, tr3) => (.error e, tr3)
        | (.ok r3, tr3) =>
          (.ok { restUrl := r3.restUrl, restToken := r3.restToken,
                 refreshToken := r0.refreshToken, accessToken := r0.accessToken,
                 method := "refresh" }, tr3)
      else enginePath3 o ttlDays creds tokens env tr2
  else enginePath3 o ttlDays creds tokens env tr

/-- Path 1 (existing session): when `restToken` and `restUrl` are both
supplied, `ping`; on a successful ping with a parsed remaining quota strictly
above the threshold return `method = "existing"` echoing the inputs; otherwise
fall through to path 2. -/
def enginePath1 (o : HttpOptions) (threshold ttlDays : Int) (creds : Option Creds)
    (tokens : Tokens) (env : EnvCfg) (tr : List FetchOutcome) :
    Except JsError AuthResult × List FetchOutcome :=
  if truthy tokens.restToken && truthy tokens.restUrl then
    let (pingResult, tr1) := ping o (jsStr tokens.restUrl) (jsStr tokens.restToken) tr
    if pingResult.ok then
      let remaining := parseIntJS ((pingResult.minRemaining).getD "0")
      if remaining.isFinite && remaining.gtInt threshold then
        (.ok { restUrl := tokens.restUrl, restToken := tokens.restToken,
               refreshToken := tokens.refreshToken, accessToken := tokens.accessToken,
               minRemaining := some ((pingResult.minRemaining).getD ""),
               method := "existing" }, tr1)
      else enginePath2 o ttlDays creds tokens env tr1
    else enginePath2 o ttlDays creds tokens env tr1
  else enginePath2 o ttlDays creds tokens env tr

/-- `loginToBullhorn(params, config)`: validate the inputs (no network), then
evaluate the four paths in order over the transport oracle. -/
def loginToBullhorn (params : JsParams) (config : Config) (env : EnvCfg)
    (tr : List FetchOutcome) : Except JsError AuthResult × List FetchOutcome :=
  match params with
  | .nonObject _ => (.error (.message "params must be an object with credentials and/or tokens"), tr)
  | .obj creds tokensOpt =>
    match resolveConfig config env with
    | .error e => (.error e, tr)
    | .ok (httpOpts, threshold, ttlDays) =>
      enginePath1 httpOpts threshold ttlDays creds (tokensOpt.getD {}) env tr

/-! ## Environment extraction (src/index.js `credentialsFromEnv`, `tokensFromEnv`) -/

/-- Environment snapshot for the extraction helpers (a key set to the empty
string is `some ""`; an unset key is `none`). -/
structure EnvVars where
  BH_CLIENT_ID : Option String := none
  BH_CLIENT_SECRET : Option String := none
  BH_USERNAME : Option String := none
  BH_PASSWORD : Option String := none
  BH_REST_URL : Option String := none
  BH_REST_TOKEN : Option String := none
  BH_REFRESH_TOKEN : Option String := none
  BH_ACCESS_TOKEN : Option String := none
deriving DecidableEq

/-- `credentialsFromEnv`: the credentials object when all four values are
truthy, else `null`. -/
def credentialsFromEnv (env : EnvVars) : Option Creds :=
  if truthy env.BH_CLIENT_ID && truthy env.BH_CLIENT_SECRET &&
      truthy env.BH_USERNAME && truthy env.BH_PASSWORD then
    some { clientId := env.BH_CLIENT_ID, clientSecret := env.BH_CLIENT_SECRET,
           username := env.BH_USERNAME, password := env.BH_PASSWORD }
  else none

/-- `tokensFromEnv`: the four token keys, with `undefined` entries deleted
(deleting an `undefined` key is the identity in the `Option` model). -/
def tokensFromEnv (env : EnvVars) : Tokens :=
  { restUrl := env.BH_REST_URL, restToken := env.BH_REST_TOKEN,
    refreshToken := env.BH_REFRESH_TOKEN, accessToken := env.BH_ACCESS_TOKEN }

/-! ## Retry loop lemmas -/

theorem requestLoop_eq_ok (cb th : Bool) (attempt remaining : Nat) (tr rest : List FetchOutcome)
    (r : Response) (h : attemptOnce tr = (.ok r, rest)) :
    requestLoop cb th attempt remaining tr = (.ok r, rest, [.fetch]) := by
  unfold requestLoop
  rw [h]

theorem requestLoop_eq_err_zero (cb th : Bool) (attempt : Nat) (tr rest : List FetchOutcome)
    (e : JsError) (h : attemptOnce tr = (.error e, rest)) :
    requestLoop cb th attempt 0 tr = (.error e, rest, [.fetch]) := by
  unfold requestLoop
  rw [h]

theorem requestLoop_eq_err_succ (cb th : Bool) (attempt r' : Nat)
    (tr rest tr2 : List FetchOutcome) (e : JsError) (res : Except JsError Response)
    (evs : List REvent) (h : attemptOnce tr = (.error e, rest))
    (hR : requestLoop cb th (attempt + 1) r' rest = (res, tr2, evs)) :
    requestLoop cb th attempt (r' + 1) tr =
      (res, tr2,
       .fetch :: ((if cb then [.callback (attempt + 1) (errStatus e) (errMessage e)] else []) ++
         (.sleep (backoffMs (attempt + 1)) :: evs))) := by
  conv_lhs => rw [requestLoop]
  rw [h]
  simp only [hR]

theorem requestLoop_fetch_bound (cb th : Bool) (remaining : Nat) :
    ∀ (attempt : Nat) (tr : List FetchOutcome),
      countFetch (requestLoop cb th attempt remaining tr).2.2 ≤ remaining + 1 := by
  induction remaining with
  | zero =>
    intro attempt tr
    rcases hA : attemptOnce tr with ⟨res, rest⟩
    cases res with
    | ok r => rw [requestLoop_eq_ok cb th attempt 0 tr rest r hA]; simp [countFetch]
    | error e => rw [requestLoop_eq_err_zero cb th attempt tr rest e hA]; simp [countFetch]
  | succ r' ih =>
    intro attempt tr
    rcases hA : attemptOnce tr with ⟨res, rest⟩
    cases res with
    | ok r => rw [requestLoop_eq_ok cb th attempt (r' + 1) tr rest r hA]; simp [countFetch]
    | error e =>
      rcases hR : requestLoop cb th (attempt + 1) r' rest with ⟨res2, tr2, evs⟩
      rw [requestLoop_eq_err_succ cb th attempt r' tr rest tr2 e res2 evs hA hR]
      have hrec := ih (attempt + 1) rest
      rw [hR] at hrec
      cases cb <;> simp [countFetch] at hrec ⊢ <;> omega

theorem requestLoop_failures_then_ok (cb th : Bool) (good : Response)
    (hgood : retryableStatus good.status = false) (ss : List Nat)
    (hss : ∀ s ∈ ss, retryableStatus s = true) :
    ∀ (attempt remaining : Nat), ss.length ≤ remaining →
      (requestLoop cb th attempt remaining (ss.map failOutcome ++ [.response good])).1 = .ok good
      ∧ callbackAttempts
          (requestLoop cb th attempt remaining (ss.map failOutcome ++ [.response good])).2.2 =
        (if cb then List.range' (attempt + 1) ss.length else []) := by
  induction ss with
  | nil =>
    intro attempt remaining _
    have hA : attemptOnce ([] ++ [FetchOutcome.response good]) = (.ok good, []) := by
      simp [attemptOnce, doFetch, hgood]
    rw [List.map_nil, requestLoop_eq_ok cb th attempt remaining _ _ _ hA]
    cases cb <;> simp [callbackAttempts]
  | cons s tail ih =>
    intro attempt remaining hlen
    have hs : retryableStatus s = true := hss s (by simp)
    have htail : ∀ s2 ∈ tail, retryableStatus s2 = true := fun s2 h2 => hss s2 (by simp [h2])
    obtain ⟨r', rfl⟩ : ∃ r', remaining = r' + 1 := ⟨remaining - 1, by simp at hlen; omega⟩
    have hA : attemptOnce ((s :: tail).map failOutcome ++ [FetchOutcome.response good]) =
        (.error (.http s), tail.map failOutcome ++ [FetchOutcome.response good]) := by
      simp [attemptOnce, doFetch, failOutcome, hs]
    rcases hR : requestLoop cb th (attempt + 1) r' (tail.map failOutcome ++ [.response good])
      with ⟨res2, tr2, evs⟩
    rw [requestLoop_eq_err_succ cb th attempt r' _ _ tr2 (.http s) res2 evs hA hR]
    have hrec := ih htail (attempt + 1) r' (by simp at hlen ⊢; omega)
    rw [hR] at hrec
    obtain ⟨h1, h2⟩ := hrec
    refine ⟨h1, ?_⟩
    cases cb <;>
      simp_all [callbackAttempts, List.length_cons, List.range'_succ]

theorem requestLoop_failures_exhausted (cb th : Bool) :
    ∀ (remaining : Nat) (ss : List Nat), (∀ s ∈ ss, retryableStatus s = true) →
      ∀ (attempt : Nat) (rest : List FetchOutcome) (hk : remaining < ss.length),
        (requestLoop cb th attempt remaining (ss.map failOutcome ++ rest)).1 =
          .error (.http (ss.get ⟨remaining, hk⟩)) := by
  intro remaining
  induction remaining with
  | zero =>
    intro ss hss attempt rest hk
    obtain ⟨s, tail, rfl⟩ : ∃ s tail, ss = s :: tail := by
      cases ss with
      | nil => simp at hk
      | cons a b => exact ⟨a, b, rfl⟩
    have hs : retryableStatus s = true := hss s (by simp)
    have hA : attemptOnce ((s :: tail).map failOutcome ++ rest) =
        (.error (.http s), tail.map failOutcome ++ rest) := by
      simp [attemptOnce, doFetch, failOutcome, hs]
    rw [requestLoop_eq_err_zero cb th attempt _ _ _ hA]
    rfl
  | succ r' ih =>
    intro ss hss attempt rest hk
    obtain ⟨s, tail, rfl⟩ : ∃ s tail, ss = s :: tail := by
      cases ss with
      | nil => simp at hk
      | cons a b => exact ⟨a, b, rfl⟩
    have hs : retryableStatus s = true := hss s (by simp)
    have htail : ∀ s2 ∈ tail, retryableStatus s2 = true := fun s2 h2 => hss s2 (by simp [h2])
    have hA : attemptOnce ((s :: tail).map failOutcome ++ rest) =
        (.error (.http s), tail.map failOutcome ++ rest) := by
      simp [attemptOnce, doFetch, failOutcome, hs]
    rcases hR : requestLoop cb th (attempt + 1) r' (tail.map failOutcome ++ rest)
      with ⟨res2, tr2, evs⟩
    rw [requestLoop_eq_err_succ cb th attempt r' _ _ tr2 (.http s) res2 evs hA hR]
    have hk2 : r' < tail.length := by simp at hk; omega
    have hrec := ih tail htail (attempt + 1) rest hk2
    rw [hR] at hrec
    simpa using hrec

theorem requestLoop_eventsShape (cb th : Bool) (remaining : Nat) :
    ∀ (attempt : Nat) (tr : List FetchOutcome),
      eventsShape cb (attempt + 1) (requestLoop cb th attempt remaining tr).2.2 = true := by
  induction remaining with
  | zero =>
    intro attempt tr
    rcases hA : attemptOnce tr with ⟨res, rest⟩
    cases res with
    | ok r => rw [requestLoop_eq_ok cb th attempt 0 tr rest r hA]; simp [eventsShape]
    | error e => rw [requestLoop_eq_err_zero cb th attempt tr rest e hA]; simp [eventsShape]
  | succ r' ih =>
    intro attempt tr
    rcases hA : attemptOnce tr with ⟨res, rest⟩
    cases res with
    | ok r => rw [requestLoop_eq_ok cb th attempt (r' + 1) tr rest r hA]; simp [eventsShape]
    | error e =>
      rcases hR : requestLoop cb th (attempt + 1) r' rest with ⟨res2, tr2, evs⟩
      rw [requestLoop_eq_err_succ cb th attempt r' tr rest tr2 e res2 evs hA hR]
      have hrec := ih (attempt + 1) rest
      rw [hR] at hrec
      cases cb <;> simp_all [eventsShape, backoffMs]

theorem requestLoop_cbThrows_irrelevant (cb : Bool) (remaining : Nat) :
    ∀ (b1 b2 : Bool) (attempt : Nat) (tr : List FetchOutcome),
      requestLoop cb b1 attempt remaining tr = requestLoop cb b2 attempt remaining tr := by
  induction remaining with
  | zero =>
    intro b1 b2 attempt tr
    rcases hA : attemptOnce tr with ⟨res, rest⟩
    cases res with
    | ok r =>
      rw [requestLoop_eq_ok cb b1 attempt 0 tr rest r hA,
        requestLoop_eq_ok cb b2 attempt 0 tr rest r hA]
    | error e =>
      rw [requestLoop_eq_err_zero cb b1 attempt tr rest e hA,
        requestLoop_eq_err_zero cb b2 attempt tr rest e hA]
  | succ r' ih =>
    intro b1 b2 attempt tr
    rcases hA : attemptOnce tr with ⟨res, rest⟩
    cases res with
    | ok r =>
      rw [requestLoop_eq_ok cb b1 attempt (r' + 1) tr rest r hA,
        requestLoop_eq_ok cb b2 attempt (r' + 1) tr rest r hA]
    | error e =>
      rcases hR1 : requestLoop cb b1 (attempt + 1) r' rest with ⟨res2, tr2, evs⟩
      have hR2 : requestLoop cb b2 (attempt + 1) r' rest = (res2, tr2, evs) :=
        (ih b2 b1 (attempt + 1) rest).trans hR1
      rw [requestLoop_eq_err_succ cb b1 attempt r' tr rest tr2 e res2 evs hA hR1,
        requestLoop_eq_err_succ cb b2 attempt r' tr rest tr2 e res2 evs hA hR2]

/-- C6: `requestWithRetry` makes at most `retries + 1` fetch attempts in total;
for a transport that fails with retryable statuses exactly `k` times and then
succeeds, if `retries >= k` the call succeeds and the `onRetryAttempt` observer
is invoked exactly `k` times with strictly increasing attempt values `1..k`
(the list `range' 1 k`); and if `k > retries` the last observed failure is
re-raised to the caller unchanged in kind after exhaustion. -/
theorem C6_retry_loop_contract (urlStr : String) (o : HttpOptions) (good : Response)
    (rest0 : List FetchOutcome) (ss : List Nat)
    (hcb : o.onRetryAttempt = true)
    (hss : ∀ s ∈ ss, retryableStatus s = true)
    (hgood : retryableStatus good.status = false) :
    (∀ tr, countFetch (requestWithRetry urlStr o tr).2.2 ≤ o.retries.toNat + 1)
    ∧ (ss.length ≤ o.retries.toNat →
        (requestWithRetry urlStr o (ss.map failOutcome ++ [.response good])).1 = .ok good
        ∧ callbackAttempts
            (requestWithRetry urlStr o (ss.map failOutcome ++ [.response good])).2.2 =
          List.range' 1 ss.length)
    ∧ (∀ hk : o.retries.toNat < ss.length,
        (requestWithRetry urlStr o (ss.map failOutcome ++ rest0)).1 =
          .error (.http (ss.get ⟨o.retries.toNat, hk⟩))) := by
  refine ⟨?_, ?_, ?_⟩
  · intro tr
    exact requestLoop_fetch_bound o.onRetryAttempt o.cbThrows o.retries.toNat 0 tr
  · intro hlen
    have h := requestLoop_failures_then_ok o.onRetryAttempt o.cbThrows good hgood ss hss
      0 o.retries.toNat hlen
    rw [hcb] at h
    constructor
    · simp only [requestWithRetry, hcb]
      exact h.1
    · simp only [requestWithRetry, hcb]
      simpa using h.2
  · intro hk
    exact requestLoop_failures_exhausted o.onRetryAttempt o.cbThrows o.retries.toNat ss hss
      0 rest0 hk

theorem C6_retry_loop_contract_witness :
    (requestWithRetry "https://rest/ping"
        { timeoutMs := 30000, userAgent := "bullhorn-auth-client", retries := 2,
          onRetryAttempt := true }
        ([500, 503].map failOutcome ++ [.response { status := 200 }])).1 =
      .ok { status := 200 }
    ∧ callbackAttempts
        (requestWithRetry "https://rest/ping"
          { timeoutMs := 30000, userAgent := "bullhorn-auth-client", retries := 2,
            onRetryAttempt := true }
          ([500, 503].map failOutcome ++ [.response { status := 200 }])).2.2 =
      List.range' 1 2
    ∧ (requestWithRetry "https://rest/ping"
        { timeoutMs := 30000, userAgent := "bullhorn-auth-client", retries := 1,
          onRetryAttempt := true }
        ([500, 503].map failOutcome ++ [])).1 = .error (.http 503) := by
  refine ⟨?_, ?_, ?_⟩
  · exact ((C6_retry_loop_contract "https://rest/ping"
      { timeoutMs := 30000, userAgent := "bullhorn-auth-client", retries := 2,
        onRetryAttempt := true }
      { status := 200 } [] [500, 503] rfl (by decide) (by decide)).2.1 (by decide)).1
  · exact ((C6_retry_loop_contract "https://rest/ping"
      { timeoutMs := 30000, userAgent := "bullhorn-auth-client", retries := 2,
        onRetryAttempt := true }
      { status := 200 } [] [500, 503] rfl (by decide) (by decide)).2.1 (by decide)).2
  · exact (C6_retry_loop_contract "https://rest/ping"
      { timeoutMs := 30000, userAgent := "bullhorn-auth-client", retries := 1,
        onRetryAttempt := true }
      { status := 200 } [] [500, 503] rfl (by decide) (by decide)).2.2 (by decide)

/-- C7 counterexample: with the observer set, one 500 failure and one success
under `retries = 1`, the recorded trace invokes the observer BEFORE the backoff
sleep, so the claimed "after that delay and before the retry" ordering (each
observer invocation immediately preceded by the sleep) is false on the code. -/
theorem C7_backoff_order_counterexample :
    (requestWithRetry "https://rest/ping"
        { timeoutMs := 30000, userAgent := "bullhorn-auth-client", retries := 1,
          onRetryAttempt := true }
        [failOutcome 500, .response { status := 200 }]).2.2 =
      [.fetch, .callback 1 (some 500) "HTTP 500", .sleep 1000, .fetch]
    ∧ cbAfterDelayClaim
        (requestWithRetry "https://rest/ping"
          { timeoutMs := 30000, userAgent := "bullhorn-auth-client", retries := 1,
            onRetryAttempt := true }
          [failOutcome 500, .response { status := 200 }]).2.2 = false := by
  decide

/-- C7 (amended): between retry attempts the delay is
`min(1000 * 2^(attempt-1), 4000)` ms (attempt counting from 1); the observer,
when set, is invoked with `{attempt, status, error}` immediately BEFORE that
delay (not after it); and a throwing observer is swallowed — the outcome does
not depend on whether the callback throws. -/
theorem C7_backoff_and_observer (urlStr : String) (o : HttpOptions) (tr : List FetchOutcome) :
    eventsShape o.onRetryAttempt 1 (requestWithRetry urlStr o tr).2.2 = true
    ∧ (∀ b1 b2 : Bool,
        requestWithRetry urlStr { o with cbThrows := b1 } tr =
          requestWithRetry urlStr { o with cbThrows := b2 } tr)
    ∧ (∀ a : Nat, backoffMs a = min (1000 * 2 ^ (a - 1)) 4000) := by
  refine ⟨?_, ?_, fun a => rfl⟩
  · exact requestLoop_eventsShape o.onRetryAttempt o.cbThrows o.retries.toNat 0 tr
  · intro b1 b2
    simpa [requestWithRetry] using
      requestLoop_cbThrows_irrelevant o.onRetryAttempt o.retries.toNat b1 b2 0 tr

/-! ## Decision-engine theorems -/

theorem loginToBullhorn_existing_split (creds : Option Creds) (tokens : Tokens)
    (config : Config) (env : EnvCfg) (tr : List FetchOutcome) (o : HttpOptions)
    (threshold ttl : Int)
    (hcfg : resolveConfig config env = .ok (o, threshold, ttl))
    (h1 : truthy tokens.restToken = true) (h2 : truthy tokens.restUrl = true) :
    loginToBullhorn (.obj creds (some tokens)) config env tr =
      (if (ping o (jsStr tokens.restUrl) (jsStr tokens.restToken) tr).1.ok
          && (parseIntJS
            (((ping o (jsStr tokens.restUrl) (jsStr tokens.restToken) tr).1.minRemaining).getD "0")).isFinite
          && (parseIntJS
            (((ping o (jsStr tokens.restUrl) (jsStr tokens.restToken) tr).1.minRemaining).getD "0")).gtInt
            threshold then
        (.ok { restUrl := tokens.restUrl, restToken := tokens.restToken,
               refreshToken := tokens.refreshToken, accessToken := tokens.accessToken,
               minRemaining := some
                 (((ping o (jsStr tokens.restUrl) (jsStr tokens.restToken) tr).1.minRemaining).getD ""),
               method := "existing" },
         (ping o (jsStr tokens.restUrl) (jsStr tokens.restToken) tr).2)
      else enginePath2 o ttl creds tokens env
        (ping o (jsStr tokens.restUrl) (jsStr tokens.restToken) tr).2) := by
  rcases hp : ping o (jsStr tokens.restUrl) (jsStr tokens.restToken) tr with ⟨pr, tr1⟩
  simp only [loginToBullhorn, hcfg, Option.getD_some]
  unfold enginePath1
  simp only [h1, h2, Bool.and_self, if_true, hp]
  cases hok : pr.ok <;> simp [hok]

/-- C1: when `tokens.restUrl` and `tokens.restToken` are both supplied,
`loginToBullhorn` first calls `ping`; if the ping succeeds and the parsed
remaining-per-minute quota strictly exceeds the threshold it returns
immediately with `method = "existing"`, echoing the supplied
restUrl/restToken/refreshToken/accessToken and the observed quota; otherwise
(failed ping, or quota at or below threshold) it neither returns nor raises
but proceeds to the next path. -/
theorem C1_existing_session_path (creds : Option Creds) (tokens : Tokens) (config : Config)
    (env : EnvCfg) (tr : List FetchOutcome) (o : HttpOptions) (threshold ttl : Int)
    (hcfg : resolveConfig config env = .ok (o, threshold, ttl))
    (h1 : truthy tokens.restToken = true) (h2 : truthy tokens.restUrl = true) :
    loginToBullhorn (.obj creds (some tokens)) config env tr =
      (if (ping o (jsStr tokens.restUrl) (jsStr tokens.restToken) tr).1.ok
          && (parseIntJS
            (((ping o (jsStr tokens.restUrl) (jsStr tokens.restToken) tr).1.minRemaining).getD "0")).isFinite
          && (parseIntJS
            (((ping o (jsStr tokens.restUrl) (jsStr tokens.restToken) tr).1.minRemaining).getD "0")).gtInt
            threshold then
        (.ok { restUrl := tokens.restUrl, restToken := tokens.restToken,
               refreshToken := tokens.refreshToken, accessToken := tokens.accessToken,
               minRemaining := some
                 (((ping o (jsStr tokens.restUrl) (jsStr tokens.restToken) tr).1.minRemaining).getD ""),
               method := "existing" },
         (ping o (jsStr tokens.restUrl) (jsStr tokens.restToken) tr).2)
      else enginePath2 o ttl creds tokens env
        (ping o (jsStr tokens.restUrl) (jsStr tokens.restToken) tr).2) :=
  loginToBullhorn_existing_split creds tokens config env tr o threshold ttl hcfg h1 h2

theorem C1_existing_session_path_witness :
    loginToBullhorn
        (.obj none (some { restUrl := some "https://rest", restToken := some "T" }))
        { minRemainingThreshold := some (.num 100) } {}
        [.response { status := 200, headers := { xRateLimitRemainingMinute := some "500" } }] =
      (.ok { restUrl := some "https://rest", restToken := some "T",
             minRemaining := some "500", method := "existing" }, []) := by
  have h := C1_existing_session_path none
    { restUrl := some "https://rest", restToken := some "T" }
    { minRemainingThreshold := some (.num 100) } {}
    [.response { status := 200, headers := { xRateLimitRemainingMinute := some "500" } }]
    { timeoutMs := 30000, userAgent := "bullhorn-auth-client", retries := 0 } 100 30
    rfl rfl rfl
  exact h.trans (by rfl)

/-- C2: once evaluation reaches the refresh path with a refresh token and full
client identity supplied, the engine calls `loginInfo` (discover) and then the
refresh exchange `step0`; if the exchange succeeds it calls `step3` with the
new access token and returns `method = "refresh"` carrying the newly issued
access/refresh tokens and the fresh REST session; if the exchange fails no
error is raised and evaluation falls through to the subsequent paths. -/
theorem C2_refresh_path (o : HttpOptions) (ttl : Int) (creds : Option Creds) (tokens : Tokens)
    (env : EnvCfg) (tr tr1 : List FetchOutcome) (info : LoginInfoResult) (r0 : Step0Result)
    (tr2 : List FetchOutcome)
    (htrig : (truthy tokens.refreshToken && truthy (credField creds Creds.clientId) &&
      truthy (credField creds Creds.clientSecret) &&
      truthy (credField creds Creds.username)) = true)
    (hinfo : loginInfo o (credField creds Creds.username) tr = (.ok info, tr1))
    (hr0 : step0 o info.oauthUrl tokens.refreshToken (credField creds Creds.clientId)
      (credField creds Creds.clientSecret) tr1 = (r0, tr2)) :
    enginePath2 o ttl creds tokens env tr =
      if r0.ok then
        match step3 o info.restUrl r0.accessToken (.num ttl) env tr2 with
        | (.error e, tr3) => (.error e, tr3)
        | (.ok r3, tr3) =>
          (.ok { restUrl := r3.restUrl, restToken := r3.restToken,
                 refreshToken := r0.refreshToken, accessToken := r0.accessToken,
                 method := "refresh" }, tr3)
      else enginePath3 o ttl creds tokens env tr2 := by
  unfold enginePath2
  simp only [htrig, if_true, hinfo, hr0]

theorem C2_refresh_path_witness :
    enginePath2 { timeoutMs := 30000, userAgent := "bullhorn-auth-client", retries := 0 } 30
        (some { clientId := some "id", clientSecret := some "sec", username := some "u",
                password := some "p" })
        { refreshToken := some "R1" } {}
        [.response { status := 200, body := { oauthUrl := some "https://oauth", restUrl := some "https://rest" } },
         .response { status := 200, body := { access_token := some "A", refresh_token := some "R2" } },
         .response { status := 200, body := { restUrl := some "https://rest", BhRestToken := some "RT" } }] =
      (.ok { restUrl := some "https://rest", restToken := some "RT",
             refreshToken := some "R2", accessToken := some "A", method := "refresh" }, []) := by
  have h := C2_refresh_path
    { timeoutMs := 30000, userAgent := "bullhorn-auth-client", retries := 0 } 30
    (some { clientId := some "id", clientSecret := some "sec", username := some "u",
            password := some "p" })
    { refreshToken := some "R1" } {}
    [.response { status := 200, body := { oauthUrl := some "https://oauth", restUrl := some "https://rest" } },
     .response { status := 200, body := { access_token := some "A", refresh_token := some "R2" } },
     .response { status := 200, body := { restUrl := some "https://rest", BhRestToken := some "RT" } }]
    [.response { status := 200, body := { access_token := some "A", refresh_token := some "R2" } },
     .response { status := 200, body := { restUrl := some "https://rest", BhRestToken := some "RT" } }]
    { oauthUrl := some "https://oauth", restUrl := some "https://rest" }
    { ok := true, accessToken := some "A", refreshToken := some "R2" }
    [.response { status := 200, body := { restUrl := some "https://rest", BhRestToken := some "RT" } }]
    rfl rfl rfl
  exact h.trans (by rfl)

/-- C3: once evaluation reaches the access-token path with
`tokens.accessToken` supplied: with a caller-supplied `restUrl` the engine goes
straight to the single `step3` (REST login) call — no discovery — and on
success returns `method = "access"` preserving the caller's refresh token;
without a `restUrl` it derives one via `loginInfo` only when
`credentials.username` is present; when no REST URL can be resolved it raises
the descriptive error immediately (never reaching the full-login path). -/
theorem C3_access_token_path (o : HttpOptions) (ttl : Int) (creds : Option Creds)
    (tokens : Tokens) (env : EnvCfg) (tr : List FetchOutcome)
    (htok : truthy tokens.accessToken = true) :
    (truthy tokens.restUrl = true →
      enginePath3 o ttl creds tokens env tr =
        match step3 o tokens.restUrl tokens.accessToken (.num ttl) env tr with
        | (.error e, tr2) => (.error e, tr2)
        | (.ok s3, tr2) =>
          (.ok { restUrl := s3.restUrl, restToken := s3.restToken,
                 accessToken := tokens.accessToken, refreshToken := tokens.refreshToken,
                 method := "access" }, tr2))
    ∧ (truthy tokens.restUrl = false → truthy (credField creds Creds.username) = false →
      enginePath3 o ttl creds tokens env tr =
        (.error (.message
          "accessToken provided but restUrl (or credentials.username to derive it) is missing"), tr))
    ∧ (∀ (info : LoginInfoResult) (tr1 : List FetchOutcome),
      truthy tokens.restUrl = false → truthy (credField creds Creds.username) = true →
      loginInfo o (credField creds Creds.username) tr = (.ok info, tr1) →
      enginePath3 o ttl creds tokens env tr =
        if truthy info.restUrl then
          match step3 o info.restUrl tokens.accessToken (.num ttl) env tr1 with
          | (.error e, tr2) => (.error e, tr2)
          | (.ok s3, tr2) =>
            (.ok { restUrl := s3.restUrl, restToken := s3.restToken,
                   accessToken := tokens.accessToken, refreshToken := tokens.refreshToken,
                   method := "access" }, tr2)
        else (.error (.message
          "accessToken provided but restUrl (or credentials.username to derive it) is missing"), tr1)) := by
  refine ⟨?_, ?_, ?_⟩
  · intro hu
    simp [enginePath3, htok, hu]
  · intro hu hc
    simp [enginePath3, htok, hu, hc]
  · intro info tr1 hu hc hinfo
    simp only [enginePath3, htok, hu, hc, hinfo]
    cases hru : truthy info.restUrl <;> simp [hru]

theorem C3_access_token_path_witness :
    enginePath3 { timeoutMs := 30000, userAgent := "bullhorn-auth-client", retries := 0 } 30
        none { restUrl := some "https://rest", accessToken := some "A" } {}
        [.response { status := 200, body := { restUrl := some "https://rest", BhRestToken := some "RT" } }] =
      (.ok { restUrl := some "https://rest", restToken := some "RT",
             accessToken := some "A", method := "access" }, []) := by
  have h := (C3_access_token_path
    { timeoutMs := 30000, userAgent := "bullhorn-auth-client", retries := 0 } 30
    none { restUrl := some "https://rest", accessToken := some "A" } {}
    [.response { status := 200, body := { restUrl := some "https://rest", BhRestToken := some "RT" } }]
    rfl).1 rfl
  exact h.trans (by rfl)

theorem resolveConfig_threshold_nonneg (config : Config) (env : EnvCfg) (o : HttpOptions)
    (threshold ttl : Int) (h : resolveConfig config env = .ok (o, threshold, ttl)) :
    0 ≤ threshold := by
  unfold resolveConfig at h
  repeat' split at h
  all_goals simp_all

theorem enginePath4_ok_method (o : HttpOptions) (ttl : Int) (creds : Option Creds)
    (env : EnvCfg) (tr tr2 : List FetchOutcome) (r : AuthResult)
    (h : enginePath4 o ttl creds env tr = (.ok r, tr2)) : r.method = "full" := by
  unfold enginePath4 at h
  repeat' split at h
  all_goals try (exfalso; simp_all; done)
  all_goals injection h with hfst hsnd
  all_goals injection hfst with hrec
  all_goals rw [← hrec]

theorem enginePath3_ok_method (o : HttpOptions) (ttl : Int) (creds : Option Creds)
    (tokens : Tokens) (env : EnvCfg) (tr tr2 : List FetchOutcome) (r : AuthResult)
    (h : enginePath3 o ttl creds tokens env tr = (.ok r, tr2)) :
    r.method = "access" ∨ r.method = "full" := by
  simp only [enginePath3] at h
  split at h
  · repeat' split at h
    all_goals try (exfalso; simp_all; done)
    all_goals injection h with hfst hsnd
    all_goals injection hfst with hrec
    all_goals rw [← hrec]
    all_goals left
    all_goals rfl
  · exact Or.inr (enginePath4_ok_method o ttl creds env tr tr2 r h)

theorem enginePath2_ok_method (o : HttpOptions) (ttl : Int) (creds : Option Creds)
    (tokens : Tokens) (env : EnvCfg) (tr tr2 : List FetchOutcome) (r : AuthResult)
    (h : enginePath2 o ttl creds tokens env tr = (.ok r, tr2)) :
    r.method ≠ "existing" := by
  have h3 : ∀ (tr0 : List FetchOutcome), enginePath3 o ttl creds tokens env tr0 = (.ok r, tr2) →
      r.method ≠ "existing" := by
    intro tr0 h0
    rcases enginePath3_ok_method o ttl creds tokens env tr0 tr2 r h0 with hm | hm <;> simp [hm]
  simp only [enginePath2] at h
  split at h
  · repeat' split at h
    all_goals try (exfalso; simp_all; done)
    all_goals try (exact h3 _ h)
    all_goals injection h with hfst hsnd
    all_goals injection hfst with hrec
    all_goals rw [← hrec]
    all_goals simp
  · exact h3 _ h

/-- C10 (implicit): when `tokens.restUrl` and `tokens.restToken` are supplied
and the ping succeeds but the response carries no
`x-ratelimit-remaining-minute` header (parsed as 0) or a value that does not
parse as a finite integer (NaN), the existing-session path is never taken:
since the threshold is validated non-negative and the comparison is strict,
the engine always falls through to the next path, and no successful outcome
can carry `method = "existing"`. -/
theorem C10_unparsed_quota_falls_through (creds : Option Creds) (tokens : Tokens)
    (config : Config) (env : EnvCfg) (tr tr1 : List FetchOutcome) (o : HttpOptions)
    (threshold ttl : Int) (pr : PingResult)
    (hcfg : resolveConfig config env = .ok (o, threshold, ttl))
    (h1 : truthy tokens.restToken = true) (h2 : truthy tokens.restUrl = true)
    (hping : ping o (jsStr tokens.restUrl) (jsStr tokens.restToken) tr = (pr, tr1))
    (hok : pr.ok = true)
    (hquota : pr.minRemaining = none ∨
      (parseIntJS ((pr.minRemaining).getD "0")).isFinite = false) :
    loginToBullhorn (.obj creds (some tokens)) config env tr =
      enginePath2 o ttl creds tokens env tr1
    ∧ ∀ (r : AuthResult) (tr2 : List FetchOutcome),
        loginToBullhorn (.obj creds (some tokens)) config env tr = (.ok r, tr2) →
        r.method ≠ "existing" := by
  have hth : 0 ≤ threshold :=
    resolveConfig_threshold_nonneg config env o threshold ttl hcfg
  have hnotlt : ¬ threshold < 0 := by omega
  have hcond : ((parseIntJS ((pr.minRemaining).getD "0")).isFinite &&
      (parseIntJS ((pr.minRemaining).getD "0")).gtInt threshold) = false := by
    rcases hquota with hq | hq
    · rw [hq]
      simp [parseIntJS, digitsVal, JsNum.gtInt, JsNum.isFinite, hnotlt]
    · simp [hq]
  have hmain := loginToBullhorn_existing_split creds tokens config env tr o threshold ttl
    hcfg h1 h2
  rw [hping] at hmain
  simp only [hok, Bool.true_and, hcond, Bool.false_eq_true, if_false] at hmain
  constructor
  · exact hmain
  · intro r tr2 hres
    rw [hmain] at hres
    exact enginePath2_ok_method o ttl creds tokens env tr1 tr2 r hres

theorem C10_unparsed_quota_falls_through_witness :
    loginToBullhorn
        (.obj none (some { restUrl := some "https://rest", restToken := some "T" }))
        {} {} [.response { status := 200 }] =
      enginePath2 { timeoutMs := 30000, userAgent := "bullhorn-auth-client", retries := 0 } 30
        none { restUrl := some "https://rest", restToken := some "T" } {} []
    ∧ ∀ (r : AuthResult) (tr2 : List FetchOutcome),
        loginToBullhorn
          (.obj none (some { restUrl := some "https://rest", restToken := some "T" }))
          {} {} [.response { status := 200 }] = (.ok r, tr2) →
        r.method ≠ "existing" :=
  C10_unparsed_quota_falls_through none
    { restUrl := some "https://rest", restToken := some "T" } {} {}
    [.response { status := 200 }] []
    { timeoutMs := 30000, userAgent := "bullhorn-auth-client", retries := 0 } 100 30
    { ok := true } rfl rfl rfl rfl rfl (Or.inl rfl)

/-- C5: fatal input validation before network: a non-object `params` raises
immediately with the transport untouched; every `resolveConfig` validation
failure (non-positive timeout, negative retries, negative or non-numeric
threshold, non-positive or non-numeric TTL) is raised by `loginToBullhorn`
with the transport untouched; and a call providing no tokens and no
credentials raises the "insufficient input" error enumerating the three
acceptable input combinations, again with the transport untouched (no network
call is made). -/
theorem C5_input_validation :
    (∀ (desc : String) (config : Config) (env : EnvCfg) (tr : List FetchOutcome),
      loginToBullhorn (.nonObject desc) config env tr =
        (.error (.message "params must be an object with credentials and/or tokens"), tr))
    ∧ (∀ (creds : Option Creds) (tokensOpt : Option Tokens) (config : Config) (env : EnvCfg)
        (tr : List FetchOutcome) (e : JsError), resolveConfig config env = .error e →
        loginToBullhorn (.obj creds tokensOpt) config env tr = (.error e, tr))
    ∧ (∀ (cfg : HttpCfgIn) (config : Config) (env : EnvCfg) (t : Int), t ≤ 0 →
        cfg.timeoutMs = some (.num t) → config.http = some cfg →
        resolveConfig config env = .error (.message "timeoutMs must be a positive number"))
    ∧ (∀ (cfg : HttpCfgIn) (config : Config) (env : EnvCfg) (rt : Int),
        (∀ t : Int, cfg.timeoutMs = some (.num t) → 0 < t) → rt < 0 →
        cfg.retries = some (.num rt) → config.http = some cfg →
        resolveConfig config env = .error (.message "retries must be a non-negative number"))
    ∧ (∀ (config : Config) (env : EnvCfg) (o : HttpOptions),
        createHttpOptions (config.http.getD {}) = .ok o →
        (config.minRemainingThreshold.getD (env.THRESHOLD_REMAINING_MIN.getD (.num 100)) =
            JsNum.nan
          ∨ ∃ t : Int, t < 0 ∧
            config.minRemainingThreshold.getD (env.THRESHOLD_REMAINING_MIN.getD (.num 100)) =
              .num t) →
        resolveConfig config env =
          .error (.message "minRemainingThreshold must be a non-negative number"))
    ∧ (∀ (config : Config) (env : EnvCfg) (o : HttpOptions) (t : Int),
        createHttpOptions (config.http.getD {}) = .ok o →
        config.minRemainingThreshold.getD (env.THRESHOLD_REMAINING_MIN.getD (.num 100)) =
          .num t →
        0 ≤ t →
        (config.ttlDays.getD (env.BULLHORN_TTL.getD (.num 30)) = JsNum.nan
          ∨ ∃ d : Int, d ≤ 0 ∧
            config.ttlDays.getD (env.BULLHORN_TTL.getD (.num 30)) = .num d) →
        resolveConfig config env = .error (.message "ttlDays must be a positive number"))
    ∧ (∀ (config : Config) (env : EnvCfg) (tr : List FetchOutcome) (o : HttpOptions)
        (threshold ttl : Int), resolveConfig config env = .ok (o, threshold, ttl) →
        loginToBullhorn (.obj none none) config env tr =
          (.error (.message
            "Insufficient input: provide either (restUrl+restToken) or (refreshToken+client creds) or full credentials"), tr)) := by
  refine ⟨fun desc config env tr => rfl, ?_, ?_, ?_, ?_, ?_, ?_⟩
  · intro creds tokensOpt config env tr e h
    simp [loginToBullhorn, h]
  · intro cfg config env t ht htm hhttp
    unfold resolveConfig createHttpOptions
    rw [hhttp]
    simp only [Option.getD_some, htm]
    rw [if_pos ht]
  · intro cfg config env rt htm hrt hret hhttp
    unfold resolveConfig createHttpOptions
    rw [hhttp]
    simp only [Option.getD_some, hret]
    rcases hcase : cfg.timeoutMs with _ | tm
    · simp only [hcase]
      rw [if_neg (by omega), if_pos hrt]
    · rcases tm with t | _
      · have ht := htm t hcase
        simp only [hcase]
        rw [if_neg (by omega), if_pos hrt]
      · simp only [hcase]
        rw [if_neg (by omega), if_pos hrt]
  · intro config env o hok hbad
    unfold resolveConfig
    rcases hbad with hb | ⟨t, ht, hb⟩
    · simp only [hok, hb]
    · simp only [hok, hb]
      rw [if_pos ht]
  · intro config env o t hok hth htnn hbad
    unfold resolveConfig
    simp only [hok, hth]
    rw [if_neg (by omega)]
    rcases hbad with hb | ⟨d, hd, hb⟩
    · simp only [hb]
    · simp only [hb]
      rw [if_pos hd]
  · intro config env tr o threshold ttl hcfg
    simp [loginToBullhorn, hcfg, enginePath1, enginePath2, enginePath3, enginePath4,
      truthy, credField, credsComplete]

theorem C5_input_validation_witness :
    loginToBullhorn (.nonObject "null") {} {} [] =
      (.error (.message "params must be an object with credentials and/or tokens"), [])
    ∧ resolveConfig { http := some { timeoutMs := some (.num 0) } } {} =
      .error (.message "timeoutMs must be a positive number")
    ∧ resolveConfig { http := some { retries := some (.num (-1)) } } {} =
      .error (.message "retries must be a non-negative number")
    ∧ resolveConfig
        { http := some { timeoutMs := some (.num 5000), retries := some (.num (-1)) } } {} =
      .error (.message "retries must be a non-negative number")
    ∧ resolveConfig { minRemainingThreshold := some (.num (-1)) } {} =
      .error (.message "minRemainingThreshold must be a non-negative number")
    ∧ resolveConfig { ttlDays := some JsNum.nan } {} =
      .error (.message "ttlDays must be a positive number")
    ∧ loginToBullhorn (.obj none none) {} {} [] =
      (.error (.message
        "Insufficient input: provide either (restUrl+restToken) or (refreshToken+client creds) or full credentials"), [])
    ∧ loginToBullhorn (.obj none none) { http := some { timeoutMs := some (.num 0) } } {} [] =
      (.error (.message "timeoutMs must be a positive number"), []) := by
  refine ⟨C5_input_validation.1 "null" {} {} [], ?_, ?_, ?_, ?_, ?_, ?_, ?_⟩
  · exact C5_input_validation.2.2.1 { timeoutMs := some (.num 0) }
      { http := some { timeoutMs := some (.num 0) } } {} 0 (by omega) rfl rfl
  · exact C5_input_validation.2.2.2.1 { retries := some (.num (-1)) }
      { http := some { retries := some (.num (-1)) } } {} (-1)
      (by intro t h; simp at h) (by omega) rfl rfl
  · exact C5_input_validation.2.2.2.1 { timeoutMs := some (.num 5000), retries := some (.num (-1)) }
      { http := some { timeoutMs := some (.num 5000), retries := some (.num (-1)) } } {} (-1)
      (by intro t h; simp at h; omega) (by omega) rfl rfl
  · exact C5_input_validation.2.2.2.2.1 { minRemainingThreshold := some (.num (-1)) } {}
      { timeoutMs := 30000, userAgent := "bullhorn-auth-client", retries := 0 } rfl
      (Or.inr ⟨-1, by omega, rfl⟩)
  · exact C5_input_validation.2.2.2.2.2.1 { ttlDays := some JsNum.nan } {}
      { timeoutMs := 30000, userAgent := "bullhorn-auth-client", retries := 0 } 100 rfl rfl
      (by omega) (Or.inl rfl)
  · exact C5_input_validation.2.2.2.2.2.2 {} {} []
      { timeoutMs := 30000, userAgent := "bullhorn-auth-client", retries := 0 } 100 30 rfl
  · exact C5_input_validation.2.1 none none
      { http := some { timeoutMs := some (.num 0) } } {} []
      (.message "timeoutMs must be a positive number") rfl

/-! ## Percent-encoding, authorize, and environment-extraction theorems -/

/-- C4: the refresh exchange, code exchange and REST login interpolate the
refresh token, client id, client secret, authorization code and access token
verbatim into the request target — NOT percent-encoded — so the claim that
every credential-bearing and token-bearing value is percent-encoded before
insertion fails on the code (only `loginInfo` and `step1` encode the username
and password). Evaluated at a token containing characters that
`encodeURIComponent` would escape. -/
theorem C4_raw_token_interpolation :
    step0Url "https://oauth" "a b&c=d" "id" "sec" =
      "https://oauth/token?grant_type=refresh_token&refresh_token=a b&c=d&client_id=id&client_secret=sec"
    ∧ encodeURIComponent "a b&c=d" = "a%20b%26c%3Dd"
    ∧ step0Url "https://oauth" "a b&c=d" "id" "sec" ≠
        "https://oauth/token?grant_type=refresh_token&refresh_token=" ++
          encodeURIComponent "a b&c=d" ++ "&client_id=id&client_secret=sec"
    ∧ step3Url "https://rest" "tok en" 30 =
        "https://rest/login?version=*&access_token=tok en&ttl=30"
    ∧ step2Url "https://oauth" "id" "sec" "co de" =
        "https://oauth/token?grant_type=authorization_code&client_id=id&client_secret=sec&code=co de" := by
  refine ⟨rfl, by decide, by decide, rfl, rfl⟩

/-- C8 counterexample: a present Location header without a `code` query
parameter is NOT a hard failure — `step1` returns successfully with an
undefined `tmpAuthCode` instead of raising, contradicting the claim that a
malformed Location raises. -/
theorem C8_authorize_counterexample :
    (step1 { timeoutMs := 30000, userAgent := "bullhorn-auth-client", retries := 0 }
        (some "https://oauth") (some "id") (some "u") (some "p")
        [.response { status := 302, headers := { location := some "https://cb?foo=1" } }]).1 =
      .ok { tmpAuthCode := none }
    ∧ exceptIsError (step1ExtractCode (some "https://cb?foo=1")) = false := by
  refine ⟨by rfl, by rfl⟩

/-- C8 (amended): `step1` raises exactly when the Location header is absent
(the `url.parse` TypeError); a present Location whose query string has no
`code` parameter does NOT raise — the operation succeeds with an undefined
authorization code. -/
theorem C8_authorize_location_required :
    (∀ loc : Option String, exceptIsError (step1ExtractCode loc) = true ↔ loc = none)
    ∧ (∀ loc : String, qsParseGet (urlParseQuery loc) "code" = none →
        step1ExtractCode (some loc) = .ok none)
    ∧ (∀ (o : HttpOptions) (oauthUrl clientId username password : Option String)
        (resp : Response), retryableStatus resp.status = false →
        resp.headers.location = none →
        (step1 o oauthUrl clientId username password [.response resp]).1 =
          .error (.typeError "The url argument must be of type string")) := by
  refine ⟨?_, ?_, ?_⟩
  · intro loc
    cases loc <;> simp [step1ExtractCode, exceptIsError]
  · intro loc h
    simp [step1ExtractCode, h]
  · intro o oauthUrl clientId username password resp hs hloc
    have hA : attemptOnce [FetchOutcome.response resp] = (.ok resp, []) := by
      simp [attemptOnce, doFetch, hs]
    unfold step1
    rw [show requestWithRetry
        (step1Url (jsStr oauthUrl) (jsStr clientId) (jsStr username) (jsStr password)) o
        [FetchOutcome.response resp] = (.ok resp, [], [.fetch]) from
      requestLoop_eq_ok o.onRetryAttempt o.cbThrows 0 o.retries.toNat _ _ resp hA]
    simp [step1ExtractCode, hloc]

theorem C8_authorize_location_required_witness :
    step1ExtractCode (some "https://cb?x=2") = .ok none
    ∧ exceptIsError (step1ExtractCode (some "https://cb?x=2")) = false
    ∧ (step1 { timeoutMs := 30000, userAgent := "bullhorn-auth-client", retries := 0 }
        (some "https://oauth") (some "id") (some "u") (some "p")
        [.response { status := 302 }]).1 =
      .error (.typeError "The url argument must be of type string") :=
  ⟨C8_authorize_location_required.2.1 "https://cb?x=2" (by decide),
   by rw [C8_authorize_location_required.2.1 "https://cb?x=2" (by decide)]; rfl,
   C8_authorize_location_required.2.2
     { timeoutMs := 30000, userAgent := "bullhorn-auth-client", retries := 0 }
     (some "https://oauth") (some "id") (some "u") (some "p") { status := 302 } rfl rfl⟩

/-- C9 counterexample: an environment where all four credential keys are
present (one of them set to the empty string) yields `null`, contradicting
the claim that `credentialsFromEnv` returns a CredentialSet exactly when all
four keys are present. -/
theorem C9_env_presence_counterexample :
    credentialsFromEnv
        { BH_CLIENT_ID := some "", BH_CLIENT_SECRET := some "s",
          BH_USERNAME := some "u", BH_PASSWORD := some "p" } = none
    ∧ (some "" : Option String).isSome = true
    ∧ (some "s" : Option String).isSome = true
    ∧ (some "u" : Option String).isSome = true
    ∧ (some "p" : Option String).isSome = true := by
  refine ⟨by rfl, rfl, rfl, rfl, rfl⟩

/-- C9 (amended): `credentialsFromEnv` returns a CredentialSet exactly when
all four keys are present with non-empty (truthy) values, echoing those
values; `tokensFromEnv` returns exactly the defined subset of the four token
keys — unset keys stay absent (never empty strings), and each defined key is
passed through unchanged. -/
theorem C9_env_extraction (env : EnvVars) :
    ((credentialsFromEnv env).isSome =
      (truthy env.BH_CLIENT_ID && truthy env.BH_CLIENT_SECRET &&
        truthy env.BH_USERNAME && truthy env.BH_PASSWORD))
    ∧ (∀ c : Creds, credentialsFromEnv env = some c →
        c = { clientId := env.BH_CLIENT_ID, clientSecret := env.BH_CLIENT_SECRET,
              username := env.BH_USERNAME, password := env.BH_PASSWORD })
    ∧ (tokensFromEnv env).restUrl = env.BH_REST_URL
    ∧ (tokensFromEnv env).restToken = env.BH_REST_TOKEN
    ∧ (tokensFromEnv env).refreshToken = env.BH_REFRESH_TOKEN
    ∧ (tokensFromEnv env).accessToken = env.BH_ACCESS_TOKEN := by
  refine ⟨?_, ?_, rfl, rfl, rfl, rfl⟩
  · unfold credentialsFromEnv
    split <;> simp_all
  · intro c hc
    unfold credentialsFromEnv at hc
    split at hc
    · injection hc with h
      exact h.symm
    · simp at hc

theorem C9_env_extraction_witness :
    ({ clientId := some "i", clientSecret := some "s", username := some "u",
       password := some "p" } : Creds) =
      { clientId := some "i", clientSecret := some "s", username := some "u",
        password := some "p" } :=
  (C9_env_extraction
    { BH_CLIENT_ID := some "i", BH_CLIENT_SECRET := some "s",
      BH_USERNAME := some "u", BH_PASSWORD := some "p" }).2.1
    { clientId := some "i", clientSecret := some "s", username := some "u",
      password := some "p" } (by rfl)

end Bullhorn
